import Mathlib

/-!
Verification of the ingestion / deduplication / fallback-search core of
`src/main.py` (a FastAPI + Supabase sim-racing-setup aggregator).

The embedding is shallow and executable:

* Python strings are Lean `String`s; `str.lower()` is modelled on its ASCII
  fragment (`A`–`Z` map to `a`–`z`, all other code points fixed), and
  `str.strip()` strips the ASCII whitespace characters; every concrete input
  appearing below is ASCII, where the model agrees with Python exactly.
* `hashlib.sha256(...).hexdigest()` is modelled by a full executable SHA-256
  over UTF-8 byte lists (`sha256Hex`), validated against the standard test
  vectors.
* The Supabase `setups` table is a list of rows; `insert` appends, and the
  `select ... eq("setup_hash", h)` existence probe is a scan.  The wall-clock
  `created_at` value is threaded in as an explicit parameter.
* Each endpoint is a pure function of the outcomes of its network / store
  effects (which are passed in as data), returning the JSON-ish result it
  would produce together with the final store state.
-/

/-! ## Python string primitives (ASCII fragment) -/

/-- ASCII fragment of Python `str.lower()` on one character. -/
def pyLowerChar (c : Char) : Char :=
  if 65 ≤ c.toNat ∧ c.toNat ≤ 90 then Char.ofNat (c.toNat + 32) else c

/-- Python `str.lower()` (ASCII fragment): lower-case every character. -/
def pyLower (s : String) : String :=
  String.mk (s.data.map pyLowerChar)

/-- The ASCII whitespace characters removed by Python `str.strip()`:
space, tab, newline, carriage return, vertical tab, form feed. -/
def isPySpace (c : Char) : Bool :=
  (c.toNat == 32) || (c.toNat == 9) || (c.toNat == 10) ||
  (c.toNat == 13) || (c.toNat == 11) || (c.toNat == 12)

/-- Python `str.strip()`: drop leading and trailing whitespace. -/
def pyStrip (s : String) : String :=
  String.mk (((s.data.dropWhile isPySpace).reverse.dropWhile isPySpace).reverse)

/-- Python substring test `sub in s`. -/
def pyContainsChars (pat : List Char) : List Char → Bool
  | [] => pat.isEmpty
  | c :: rest => pat.isPrefixOf (c :: rest) || pyContainsChars pat rest

/-- Python substring test `sub in s` on `String`s. -/
def pyContains (sub s : String) : Bool :=
  pyContainsChars sub.data s.data

/-- UTF-8 encoding of one character (as in `str.encode("utf-8")`). -/
def utf8EncChar (c : Char) : List Nat :=
  let n := c.toNat
  if n < 128 then [n]
  else if n < 2048 then [192 + n / 64, 128 + n % 64]
  else if n < 65536 then [224 + n / 4096, 128 + n / 64 % 64, 128 + n % 64]
  else [240 + n / 262144, 128 + n / 4096 % 64, 128 + n / 64 % 64, 128 + n % 64]

/-- UTF-8 bytes of a string, Python `s.encode("utf-8")`. -/
def utf8Bytes (s : String) : List Nat :=
  s.data.flatMap utf8EncChar

/-! ## SHA-256 (the model of `hashlib.sha256(..).hexdigest()`) -/

/-- Truncate to a 32-bit word. -/
def w32 (n : Nat) : Nat := n % 4294967296

/-- Right rotation of a 32-bit word by `n` bits. -/
def rotr32 (n x : Nat) : Nat := w32 ((x >>> n) ||| (x <<< (32 - n)))

/-- Bitwise complement of a 32-bit word. -/
def not32 (x : Nat) : Nat := x ^^^ 4294967295

def shaCh (x y z : Nat) : Nat := (x &&& y) ^^^ (not32 x &&& z)

def shaMaj (x y z : Nat) : Nat := (x &&& y) ^^^ (x &&& z) ^^^ (y &&& z)

def shaBigSigma0 (x : Nat) : Nat := rotr32 2 x ^^^ rotr32 13 x ^^^ rotr32 22 x

def shaBigSigma1 (x : Nat) : Nat := rotr32 6 x ^^^ rotr32 11 x ^^^ rotr32 25 x

def shaSmallSigma0 (x : Nat) : Nat := rotr32 7 x ^^^ rotr32 18 x ^^^ (x >>> 3)

def shaSmallSigma1 (x : Nat) : Nat := rotr32 17 x ^^^ rotr32 19 x ^^^ (x >>> 10)

/-- The 64 SHA-256 round constants (FIPS 180-4, here in decimal). -/
def shaK : List Nat :=
  [1116352408, 1899447441, 3049323471, 3921009573, 961987163,
   1508970993, 2453635748, 2870763221, 3624381080, 310598401,
   607225278, 1426881987, 1925078388, 2162078206, 2614888103,
   3248222580, 3835390401, 4022224774, 264347078, 604807628,
   770255983, 1249150122, 1555081692, 1996064986, 2554220882,
   2821834349, 2952996808, 3210313671, 3336571891, 3584528711,
   113926993, 338241895, 666307205, 773529912, 1294757372,
   1396182291, 1695183700, 1986661051, 2177026350, 2456956037,
   2730485921, 2820302411, 3259730800, 3345764771, 3516065817,
   3600352804, 4094571909, 275423344, 430227734, 506948616,
   659060556, 883997877, 958139571, 1322822218, 1537002063,
   1747873779, 1955562222, 2024104815, 2227730452, 2361852424,
   2428436474, 2756734187, 3204031479, 3329325298]

/-- Initial SHA-256 hash value (FIPS 180-4, here in decimal). -/
def shaH0 : List Nat :=
  [1779033703, 3144134277, 1013904242, 2773480762, 1359893119,
   2600822924, 528734635, 1541459225]

/-- SHA-256 padding: append `0x80`, zeros to 56 mod 64, then the 64-bit
big-endian bit length. -/
def shaPad (ms : List Nat) : List Nat :=
  let L := ms.length
  let zeros := (120 - (L + 1) % 64) % 64
  ms ++ [128] ++ List.replicate zeros 0 ++
    (List.range 8).map (fun i => (8 * L) >>> (8 * (7 - i)) % 256)

/-- Group a padded byte list into big-endian 32-bit words. -/
def bytesToWords : List Nat → List Nat
  | a :: b :: c :: d :: rest => (((a * 256 + b) * 256 + c) * 256 + d) :: bytesToWords rest
  | _ => []

/-- Split a word list into 16-word blocks. -/
def shaBlocks (ws : List Nat) : List (List Nat) :=
  (List.range (ws.length / 16)).map (fun i => ((ws.drop (16 * i)).take 16))

/-- Extend a 16-word block to the 64-word message schedule; `k` is the number
of words still to append. -/
def shaSchedule : List Nat → Nat → List Nat
  | ws, 0 => ws
  | ws, k + 1 =>
    let i := ws.length
    let w := w32 (shaSmallSigma1 (ws.getD (i - 2) 0) + ws.getD (i - 7) 0 +
                  shaSmallSigma0 (ws.getD (i - 15) 0) + ws.getD (i - 16) 0)
    shaSchedule (ws ++ [w]) k

/-- One SHA-256 round on the working variables `[a,b,c,d,e,f,g,h]` with a
schedule word and a round constant. -/
def shaRound (st : List Nat) (wk : Nat × Nat) : List Nat :=
  match st with
  | [a, b, c, d, e, f, g, h] =>
    let t1 := w32 (h + shaBigSigma1 e + shaCh e f g + wk.2 + wk.1)
    let t2 := w32 (shaBigSigma0 a + shaMaj a b c)
    [w32 (t1 + t2), a, b, c, w32 (d + t1), e, f, g]
  | st => st

/-- SHA-256 compression of one block into the running hash. -/
def shaCompress (hs : List Nat) (block : List Nat) : List Nat :=
  let ws := shaSchedule block 48
  let fin := (ws.zip shaK).foldl shaRound hs
  (hs.zip fin).map (fun p => w32 (p.1 + p.2))

/-- SHA-256 digest of a byte list, as eight 32-bit words. -/
def sha256Words (ms : List Nat) : List Nat :=
  (shaBlocks (bytesToWords (shaPad ms))).foldl shaCompress shaH0

/-- Lower-case hexadecimal digit. -/
def hexDigit (n : Nat) : Char :=
  if n < 10 then Char.ofNat (48 + n) else Char.ofNat (87 + n)

/-- Eight hex characters of one 32-bit word, big-endian. -/
def wordToHex (x : Nat) : List Char :=
  (List.range 8).map (fun i => hexDigit ((x >>> (4 * (7 - i))) % 16))

/-- `hashlib.sha256(bytes).hexdigest()`: the 64-character lower-case hex
digest. -/
def sha256Hex (ms : List Nat) : String :=
  String.mk (((sha256Words ms).map wordToHex).flatten)

/-! ## `compute_setup_hash` (src/main.py lines 37–39) -/

/-- Python `(notes or "")` for an optional `notes` argument: `None` (and the
empty string) turn into `""`. -/
def notesOrEmpty : Option String → String
  | none => ""
  | some s => s

/-- `compute_setup_hash(car, track, notes)`:
`sha256((car.strip().lower() + "|" + track.strip().lower() + "|" +
(notes or "").strip().lower()).encode("utf-8")).hexdigest()`. -/
def compute_setup_hash (car track : String) (notes : Option String) : String :=
  sha256Hex (utf8Bytes
    (pyLower (pyStrip car) ++ "|" ++ pyLower (pyStrip track) ++ "|" ++
     pyLower (pyStrip (notesOrEmpty notes))))

/-! ## The Supabase `setups` table and `insert_setup_if_new`
(src/main.py lines 41–57) -/

/-- One row of the `setups` table, as built in `insert_setup_if_new`. -/
structure SetupEntry where
  car : String
  track : String
  url : String
  source : String
  notes : Option String
  setup_hash : String
  created_at : String
  deriving DecidableEq, Repr

/-- The `setups` table; `insert` appends a row. -/
abbrev Store := List SetupEntry

/-- The probe `select("id").eq("setup_hash", h).limit(1)` returns a non-empty
`data` exactly when some row has that hash. -/
def storeHasHash (st : Store) (h : String) : Bool :=
  st.any (fun e => e.setup_hash == h)

/-- Number of stored rows carrying a given fingerprint. -/
def countHash (st : Store) (h : String) : Nat :=
  (st.filter (fun e => e.setup_hash == h)).length

/-- The row dict built at src/main.py lines 47–55 (`created_at` is the
wall-clock reading, threaded in as `now`). -/
def setupRow (car track url source : String) (notes : Option String)
    (now : String) : SetupEntry :=
  { car := car, track := track, url := url, source := source, notes := notes,
    setup_hash := compute_setup_hash car track notes, created_at := now }

/-- `insert_setup_if_new(car, track, url, source, notes)`: check whether the
fingerprint exists, return `False` if so, otherwise insert the row and return
`True`.  The returned store is the table after the call. -/
def insert_setup_if_new (car track url source : String) (notes : Option String)
    (now : String) (st : Store) : Bool × Store :=
  let setup_hash := compute_setup_hash car track notes
  if storeHasHash st setup_hash then (false, st)
  else (true, st ++ [setupRow car track url source notes now])

/-! ### The two store operations of `insert_setup_if_new` as separate steps

`insert_setup_if_new` issues two independent network calls to the backend:
the `select` at line 44 and the `insert` at line 56.  Under two concurrent
requests these four calls interleave.  `CallPhase` is the control point of
one in-flight call; `stepCheck` runs its line-44 `select` against the store
it observes, `stepInsert` runs its line-56 `insert`. -/

/-- Arguments of one in-flight `insert_setup_if_new` call. -/
structure PendingCall where
  car : String
  track : String
  url : String
  source : String
  notes : Option String
  now : String

/-- Control point of one in-flight call: before its `select`; after a
`select` that found no duplicate but before its `insert`; or returned. -/
inductive CallPhase where
  | start
  | pendingInsert
  | finished (result : Bool)
  deriving DecidableEq, Repr

/-- Execute the line-44 duplicate probe against the store state current at
that moment. -/
def stepCheck (c : PendingCall) (ph : CallPhase) (st : Store) : CallPhase :=
  match ph with
  | .start =>
    if storeHasHash st (compute_setup_hash c.car c.track c.notes) then
      .finished false
    else .pendingInsert
  | p => p

/-- Execute the line-56 insert against the store state current at that
moment. -/
def stepInsert (c : PendingCall) (ph : CallPhase) (st : Store) :
    CallPhase × Store :=
  match ph with
  | .pendingInsert =>
    (.finished true, st ++ [setupRow c.car c.track c.url c.source c.notes c.now])
  | p => (p, st)

/-- Run one call to completion with no interleaving: its check immediately
followed by its insert. -/
def runAlone (c : PendingCall) (st : Store) : CallPhase × Store :=
  stepInsert c (stepCheck c .start st) st

/-! ## The site scrapers (src/main.py lines 60–103 and 106–147)

`scrape_simracingsetup` and `scrape_racingsetups` are textually identical up
to base URL, source tag and CSS selectors, so they share one embedding,
parameterised by `baseUrl` and `source`.  A candidate listing element is
modelled by the data the endpoint extracts from it: the optional `.car-name`
/ `.track-name` / details-link selector hits, and the outcome of the
detail-page request (an exception message, or the optional `.setup-notes`
tag text). -/

/-- One element of `soup.select(".setup-listing")` as the endpoint reads it. -/
structure RawItem where
  car : Option String
  track : Option String
  link : Option String
  detailFetch : Except String (Option String)
  deriving Repr

/-- A scrape endpoint's JSON result: `{"message": ...}` or `{"error": ...}`. -/
inductive ScrapeOutcome where
  | msg (s : String)
  | err (s : String)
  deriving DecidableEq, Repr

/-- The `for item in setup_items:` loop.  Items missing one of the three
selectors are skipped.  A detail-page exception propagates out of the loop
(third component `some e`), abandoning the remaining items; rows already
inserted stay in the store. -/
def scrapeLoop (baseUrl source now : String) :
    List RawItem → Store → Nat → Store × Nat × Option String
  | [], st, saved => (st, saved, none)
  | item :: rest, st, saved =>
    match item.car, item.track, item.link with
    | some car, some track, some link =>
      match item.detailFetch with
      | .error e => (st, saved, some e)
      | .ok notesTag =>
        let notes := notesTag.map pyStrip
        let (inserted, st2) :=
          insert_setup_if_new (pyStrip car) (pyStrip track) (baseUrl ++ link)
            source notes now st
        scrapeLoop baseUrl source now rest st2 (if inserted then saved + 1 else saved)
    | _, _, _ => scrapeLoop baseUrl source now rest st saved

/-- The body shared by both site-scrape endpoints: `listing` is the outcome
of the listing-page request (`requests.get(f"{base_url}/setups")` plus
`soup.select(...)`). -/
def scrapeSite (baseUrl source : String) (listing : Except String (List RawItem))
    (now : String) (st : Store) : Store × ScrapeOutcome :=
  match listing with
  | .error e => (st, .err e)
  | .ok items =>
    if items.isEmpty then (st, .msg "No setups found or site structure changed.")
    else
      match scrapeLoop baseUrl source now items st 0 with
      | (st2, saved, none) =>
        (st2, .msg ("Saved " ++ toString saved ++ " new setups from " ++ source))
      | (st2, _, some e) => (st2, .err e)

/-- `GET /scrape/simracingsetup`. -/
def scrape_simracingsetup (listing : Except String (List RawItem)) (now : String)
    (st : Store) : Store × ScrapeOutcome :=
  scrapeSite "https://www.simracingsetup.com" "SimRacingSetup.com" listing now st

/-- `GET /scrape/racingsetups`. -/
def scrape_racingsetups (listing : Except String (List RawItem)) (now : String)
    (st : Store) : Store × ScrapeOutcome :=
  scrapeSite "https://racingsetups.shop" "RacingSetups.shop" listing now st

/-! ## The Reddit endpoint (src/main.py lines 150–183) -/

/-- One Pushshift submission as the endpoint reads it
(`post.get("title", "")`, `post.get("url", "")`, `post.get("selftext", "")`). -/
structure RedditPost where
  title : String
  url : String
  selftext : String
  deriving DecidableEq, Repr

/-- `GET /scrape/reddit?car=...&track=...`.  `fetchOutcome` is the outcome of
the Pushshift request; the third component records whether that network
request was issued at all. -/
def scrape_reddit (car track : String)
    (fetchOutcome : Except String (List RedditPost)) (now : String)
    (st : Store) : Store × ScrapeOutcome × Bool :=
  if car = "" then
    (st, .err "Please provide a 'car' query parameter", false)
  else
    match fetchOutcome with
    | .error e => (st, .err e, true)
    | .ok posts =>
      let step := fun (acc : Store × Nat) (post : RedditPost) =>
        let notes := if post.selftext = "" then post.title else post.selftext
        let (inserted, st2) :=
          insert_setup_if_new car (if track = "" then "Unknown" else track)
            post.url "Reddit" (some notes) now acc.1
        (st2, if inserted then acc.2 + 1 else acc.2)
      let fin := posts.foldl step (st, 0)
      (fin.1, .msg ("Saved " ++ toString fin.2 ++ " new setups from Reddit"), true)

/-! ## `fetch_recent_setups` (src/main.py lines 186–195) -/

/-- `fetch_recent_setups(limit=3)`: `rows` is the outcome of the
`select("*").order("created_at", desc=True).limit(limit)` store read — an
exception message, or the returned rows (most recent first).  A backend
exception is caught and rendered into the returned string. -/
def fetch_recent_setups (rows : Except String (List SetupEntry)) : String :=
  match rows with
  | .error e => "Could not load setups: " ++ e
  | .ok data =>
    if data.isEmpty then "No real setups found."
    else
      String.intercalate "\n"
        (data.map (fun s => "- " ++ s.car ++ " at " ++ s.track ++ " → " ++ s.url))

/-! ## The search providers and `chat_with_ai` (src/main.py lines 198–260)

`src/main.py` is cut off inside `brave_search` (line 259): the text after
`async with httpx.AsyncClient() as client:` — the remainder of
`brave_search` and the whole of `serpapi_search` — is not in the file.
Their callers are: `chat_with_ai` awaits both and treats the returned string
as the search context, and falls back to `serpapi_search` exactly when the
string returned by `brave_search` contains `"failed"` case-insensitively.
The bodies are therefore modelled from the spec (§4.6): each provider
formats its `(title, url)` results as plain text lines, truncated upstream
to a small count; a Brave failure produces a message saying the search
failed (which is what the caller's `"failed" in ...` test keys on), and a
failure of the last provider produces the sentinel. -/

/-- What a search provider's network call came back with: formatted
`(title, url)` results, or an exception/no-result condition. -/
inductive ProviderOutcome where
  | ok (results : List (String × String))
  | err (msg : String)
  deriving DecidableEq, Repr

/-- Modelled from the spec: result formatting shared by both providers —
one text line per `(title, url)` result (spec §3 SearchResult, §4.6). -/
def renderResults (rs : List (String × String)) : String :=
  String.intercalate "\n" (rs.map (fun r => r.1 ++ " - " ++ r.2))

/-- Modelled from the spec: the part of `brave_search` truncated after
src/main.py line 259.  On success it returns the formatted results; on any
exception it returns a message that the Brave search failed (the caller
dispatches on the word `"failed"`). -/
def brave_search (outcome : ProviderOutcome) : String :=
  match outcome with
  | .ok rs => renderResults rs
  | .err e => "Brave search failed: " ++ e

/-- Modelled from the spec: `serpapi_search` is absent from the truncated
src/main.py.  On success it returns the formatted results; as the last
provider of the chain it returns the sentinel when it fails (spec §4.6
step 3). -/
def serpapi_search (outcome : ProviderOutcome) : String :=
  match outcome with
  | .ok rs => renderResults rs
  | .err _ => "No information available."

/-- `POST /chat` result: `{"response": ...}` or `{"error": ...}`. -/
inductive ChatResult where
  | response (s : String)
  | error (s : String)
  deriving DecidableEq, Repr

/-- The effects one `/chat` request encounters: the network outcomes of the
two search providers, the store read behind `fetch_recent_setups`, and the
Together-AI completion call (`.ok content` is
`response.json()["choices"][0]["message"]["content"]`). -/
structure ChatEnv where
  braveOutcome : ProviderOutcome
  serpapiOutcome : ProviderOutcome
  storeFetch : Except String (List SetupEntry)
  completionOutcome : Except String String
  deriving Repr

/-- Everything observable about one `/chat` request. -/
structure ChatTrace where
  result : ChatResult
  serpapiCalls : List String
  searchResults : String
  userMessage : String
  deriving DecidableEq, Repr

/-- The user-role message content built at src/main.py lines 216–221. -/
def userContent (prompt searchResults realSetups : String) : String :=
  "User prompt: " ++ prompt ++ "\n\n" ++ "Search results:\n" ++ searchResults ++
  "\n\n" ++ "Real setups:\n" ++ realSetups

/-- `POST /chat` (`chat_with_ai`): call `brave_search`; if the returned text
contains `"failed"` (lower-cased), call `serpapi_search` with the same
prompt; fetch recent setups; build the messages; call the completion
provider, returning its stripped content on success and `{"error": ...}` on
exception.  `serpapiCalls` lists the queries `serpapi_search` was invoked
with. -/
def chat_with_ai (env : ChatEnv) (prompt : String) : ChatTrace :=
  let sr0 := brave_search env.braveOutcome
  let fallback := pyContains "failed" (pyLower sr0)
  let searchResults := if fallback then serpapi_search env.serpapiOutcome else sr0
  let serpapiCalls := if fallback then [prompt] else []
  let realSetups := fetch_recent_setups env.storeFetch
  let msg := userContent prompt searchResults realSetups
  let result :=
    match env.completionOutcome with
    | .ok content => ChatResult.response (pyStrip content)
    | .error e => ChatResult.error e
  { result := result, serpapiCalls := serpapiCalls,
    searchResults := searchResults, userMessage := msg }

/-! ## History (`ChatExchange`, spec §3)

The spec's history log is append-only storage of one record per completed
answer request.  `chat_with_ai` in src/main.py contains no history write at
all — no statement in lines 198–247 touches any history table — so the
request handler leaves any history state unchanged.  `chat_request` is the
whole request including its (absent) persistence effects. -/

/-- A history record as the spec describes it. -/
structure ChatExchange where
  id : Nat
  prompt : String
  response : String
  timestamp : String
  deriving DecidableEq, Repr

/-- One `/chat` request together with its effect on the history log: the
handler performs no history operation, so the log passes through unchanged. -/
def chat_request (hist : List ChatExchange) (env : ChatEnv) (prompt : String) :
    ChatTrace × List ChatExchange :=
  (chat_with_ai env prompt, hist)

/-! ## The fingerprint formula as the spec words it -/

/-- The fingerprint formula exactly as the spec states it, for comparison
with `compute_setup_hash`: `SHA-256(lower(car) + "|" + lower(track) + "|" +
lower(notes_or_empty))`, with no whitespace stripping. -/
def specFingerprint (car track : String) (notes : Option String) : String :=
  sha256Hex (utf8Bytes
    (pyLower car ++ "|" ++ pyLower track ++ "|" ++ pyLower (notesOrEmpty notes)))

/-! ## Helper lemmas -/

theorem toNat_ofNat_small (m : Nat) (h : m < 55296) : (Char.ofNat m).toNat = m := by
  have hv : m.isValidChar := Or.inl h
  simp [Char.ofNat, hv, Char.ofNatAux, Char.toNat, UInt32.toNat]

/-- Lower-casing never creates or destroys whitespace. -/
theorem isPySpace_pyLowerChar (c : Char) : isPySpace (pyLowerChar c) = isPySpace c := by
  unfold pyLowerChar
  by_cases h : 65 ≤ c.toNat ∧ c.toNat ≤ 90
  · have h32 : c.toNat + 32 < 55296 := by omega
    rw [if_pos h]
    simp only [isPySpace, toNat_ofNat_small _ h32]
    rw [Bool.eq_iff_iff]
    simp only [beq_iff_eq, Bool.or_eq_true]
    omega
  · rw [if_neg h]

theorem pyLowerChar_pyLowerChar (c : Char) :
    pyLowerChar (pyLowerChar c) = pyLowerChar c := by
  by_cases h : 65 ≤ c.toNat ∧ c.toNat ≤ 90
  · have h32 : c.toNat + 32 < 55296 := by omega
    have hin : pyLowerChar c = Char.ofNat (c.toNat + 32) := by
      rw [pyLowerChar, if_pos h]
    rw [hin, pyLowerChar, toNat_ofNat_small _ h32, if_neg (by omega)]
  · have hin : pyLowerChar c = c := by rw [pyLowerChar, if_neg h]
    rw [hin, hin]

theorem dropWhile_map_pyLower (l : List Char) :
    (l.map pyLowerChar).dropWhile isPySpace =
      (l.dropWhile isPySpace).map pyLowerChar := by
  induction l with
  | nil => rfl
  | cons c t ih =>
    simp only [List.map_cons, List.dropWhile_cons, isPySpace_pyLowerChar c]
    by_cases hc : isPySpace c = true
    · simp [hc, ih]
    · simp [Bool.of_not_eq_true hc]

/-- Stripping and lower-casing commute. -/
theorem pyStrip_pyLower (s : String) : pyStrip (pyLower s) = pyLower (pyStrip s) := by
  cases s with
  | mk l =>
    simp only [pyStrip, pyLower, dropWhile_map_pyLower, ← List.map_reverse]

theorem countHash_eq_zero (st : Store) (h : String)
    (hh : storeHasHash st h = false) : countHash st h = 0 := by
  induction st with
  | nil => rfl
  | cons e t ih =>
    simp only [storeHasHash, List.any_cons, Bool.or_eq_false_iff] at hh
    simp only [countHash, List.filter_cons, hh.1, List.length_nil]
    exact ih hh.2

theorem storeHasHash_append (a b : Store) (h : String) :
    storeHasHash (a ++ b) h = (storeHasHash a h || storeHasHash b h) := by
  simp [storeHasHash]

theorem countHash_append (a b : Store) (h : String) :
    countHash (a ++ b) h = countHash a h + countHash b h := by
  simp [countHash]

/-- Inserting a row and then inserting any row with the same fingerprint:
the first call inserts and returns `True`, the second is refused, and the
fingerprint ends up on exactly one row (given it was absent at the start). -/
theorem insert_pair_spec (car track url source : String) (notes : Option String)
    (now : String) (car2 track2 url2 source2 : String) (notes2 : Option String)
    (now2 : String) (st0 : Store)
    (heq : compute_setup_hash car2 track2 notes2 = compute_setup_hash car track notes)
    (hfresh : storeHasHash st0 (compute_setup_hash car track notes) = false) :
    (insert_setup_if_new car track url source notes now st0).1 = true ∧
    (insert_setup_if_new car2 track2 url2 source2 notes2 now2
      (insert_setup_if_new car track url source notes now st0).2).1 = false ∧
    (insert_setup_if_new car2 track2 url2 source2 notes2 now2
      (insert_setup_if_new car track url source notes now st0).2).2 =
      st0 ++ [setupRow car track url source notes now] ∧
    countHash (insert_setup_if_new car2 track2 url2 source2 notes2 now2
      (insert_setup_if_new car track url source notes now st0).2).2
      (compute_setup_hash car track notes) = 1 := by
  have h1 : insert_setup_if_new car track url source notes now st0 =
      (true, st0 ++ [setupRow car track url source notes now]) := by
    simp [insert_setup_if_new, hfresh]
  have hhas : storeHasHash (st0 ++ [setupRow car track url source notes now])
      (compute_setup_hash car2 track2 notes2) = true := by
    rw [heq, storeHasHash_append, hfresh]
    simp [storeHasHash, setupRow]
  have h2 : insert_setup_if_new car2 track2 url2 source2 notes2 now2
      (st0 ++ [setupRow car track url source notes now]) =
      (false, st0 ++ [setupRow car track url source notes now]) := by
    simp [insert_setup_if_new, hhas]
  rw [h1]
  simp only [h2]
  refine ⟨trivial, trivial, trivial, ?_⟩
  rw [countHash_append, countHash_eq_zero st0 _ hfresh]
  simp [countHash, setupRow]

/-- Faithfulness of the two-step decomposition: a check immediately followed
by its insert is exactly `insert_setup_if_new`. -/
theorem runAlone_eq_insert (c : PendingCall) (st : Store) :
    runAlone c st =
      ((CallPhase.finished (insert_setup_if_new c.car c.track c.url c.source
          c.notes c.now st).1),
        (insert_setup_if_new c.car c.track c.url c.source c.notes c.now st).2) := by
  cases hb : storeHasHash st (compute_setup_hash c.car c.track c.notes) <;>
    simp [runAlone, stepCheck, stepInsert, insert_setup_if_new, hb]

theorem pyContainsChars_append_left (pat xs ys : List Char)
    (h : pyContainsChars pat xs = true) :
    pyContainsChars pat (xs ++ ys) = true := by
  induction xs with
  | nil =>
    simp only [pyContainsChars, List.isEmpty_iff] at h
    subst h
    cases ys with
    | nil => rfl
    | cons c rest => simp [pyContainsChars]
  | cons c rest ih =>
    simp only [pyContainsChars, Bool.or_eq_true] at h
    rcases h with h | h
    · rw [List.isPrefixOf_iff_prefix] at h
      have hp : pat <+: (c :: rest) ++ ys := h.trans (List.prefix_append _ _)
      simp only [List.cons_append, pyContainsChars, Bool.or_eq_true]
      exact Or.inl (List.isPrefixOf_iff_prefix.mpr hp)
    · simp only [List.cons_append, pyContainsChars, Bool.or_eq_true]
      exact Or.inr (ih h)

theorem pyContains_append_left (sub a b : String)
    (h : pyContains sub a = true) : pyContains sub (a ++ b) = true := by
  unfold pyContains at h ⊢
  rw [String.data_append]
  exact pyContainsChars_append_left _ _ _ h

theorem pyLower_append (a b : String) : pyLower (a ++ b) = pyLower a ++ pyLower b := by
  cases a with
  | mk l =>
    cases b with
    | mk m =>
      show pyLower (String.mk (l ++ m)) = _
      simp only [pyLower, List.map_append]
      rfl

/-- Whatever the exception text, the modelled Brave failure message triggers
the caller's `"failed" in search_results.lower()` test. -/
theorem brave_err_contains_failed (e : String) :
    pyContains "failed" (pyLower (brave_search (.err e))) = true := by
  show pyContains "failed" (pyLower ("Brave search failed: " ++ e)) = true
  rw [pyLower_append]
  exact pyContains_append_left _ _ _ (by decide)

/-! ## Validation of the SHA-256 model against the standard test vectors -/

theorem sha256_vector_abc : sha256Hex (utf8Bytes "abc") =
    "ba7816bf8f01cfea414140de5dae2223b00361a396177a9cb410ff61f20015ad" := by decide

theorem sha256_vector_empty : sha256Hex (utf8Bytes "") =
    "e3b0c44298fc1c149afbf4c8996fb92427ae41e4649b934ca495991b7852b855" := by decide

theorem sha256_vector_two_blocks :
    sha256Hex (utf8Bytes "abcdbcdecdefdefgefghfghighijhijkijkljklmklmnlmnomnopnopq") =
    "248d6a61d20638b8e5c026930c3e6039a33ce45964ff2167f6ecedd419db06c1" := by decide

/-! ## The claims -/

/-- C1: the claim demands that `insert_setup_if_new` settle concurrent
same-fingerprint calls atomically, with at most one `True` and at most one
stored record.  The code is the opposite: an unsynchronized existence check
(line 44) followed by a separate insert (line 56).  Under the interleaving
check₁–check₂–insert₁–insert₂ of two calls with equal `(car, track, notes)`
on a store not containing the fingerprint, both checks see it absent, both
calls insert and return `True`, and the store ends up holding two records
with that fingerprint. -/
theorem C1_check_then_insert_race (car track url1 source1 url2 source2 : String)
    (notes : Option String) (now1 now2 : String) :
    (stepInsert ⟨car, track, url1, source1, notes, now1⟩
        (stepCheck ⟨car, track, url1, source1, notes, now1⟩ .start []) []).1 =
      .finished true ∧
    (stepInsert ⟨car, track, url2, source2, notes, now2⟩
        (stepCheck ⟨car, track, url2, source2, notes, now2⟩ .start [])
        (stepInsert ⟨car, track, url1, source1, notes, now1⟩
          (stepCheck ⟨car, track, url1, source1, notes, now1⟩ .start []) []).2).1 =
      .finished true ∧
    countHash
      (stepInsert ⟨car, track, url2, source2, notes, now2⟩
        (stepCheck ⟨car, track, url2, source2, notes, now2⟩ .start [])
        (stepInsert ⟨car, track, url1, source1, notes, now1⟩
          (stepCheck ⟨car, track, url1, source1, notes, now1⟩ .start []) []).2).2
      (compute_setup_hash car track notes) = 2 := by
  have hch : storeHasHash [] (compute_setup_hash car track notes) = false := rfl
  simp [stepCheck, stepInsert, hch, countHash, setupRow]

/-- C2: sequential idempotence.  Starting from any store in which the
fingerprint of `(car, track, notes)` is absent, two successive
`insert_setup_if_new` calls with the same `(car, track, notes)` — the urls,
sources and timestamps may differ — return `True` then `False`, and exactly
one stored record carries that fingerprint afterwards. -/
theorem C2_sequential_idempotence (car track url1 source1 url2 source2 now1 now2 : String)
    (notes : Option String) (st0 : Store)
    (hfresh : storeHasHash st0 (compute_setup_hash car track notes) = false) :
    (insert_setup_if_new car track url1 source1 notes now1 st0).1 = true ∧
    (insert_setup_if_new car track url2 source2 notes now2
      (insert_setup_if_new car track url1 source1 notes now1 st0).2).1 = false ∧
    countHash (insert_setup_if_new car track url2 source2 notes now2
        (insert_setup_if_new car track url1 source1 notes now1 st0).2).2
      (compute_setup_hash car track notes) = 1 := by
  obtain ⟨h1, h2, _, h4⟩ := insert_pair_spec car track url1 source1 notes now1
    car track url2 source2 notes now2 st0 rfl hfresh
  exact ⟨h1, h2, h4⟩

/-- Witness for C2 at the spec's own example: inserting
`("Mazda MX-5", "Okayama", "soft suspension")` from connector A and then
from connector B into an empty store. -/
theorem C2_sequential_idempotence_witness :
    (insert_setup_if_new "Mazda MX-5" "Okayama" "http://a" "SimRacingSetup.com"
      (some "soft suspension") "2024-01-01T00:00:00" []).1 = true ∧
    (insert_setup_if_new "Mazda MX-5" "Okayama" "http://b" "RacingSetups.shop"
      (some "soft suspension") "2024-01-02T00:00:00"
      (insert_setup_if_new "Mazda MX-5" "Okayama" "http://a" "SimRacingSetup.com"
        (some "soft suspension") "2024-01-01T00:00:00" []).2).1 = false ∧
    countHash (insert_setup_if_new "Mazda MX-5" "Okayama" "http://b" "RacingSetups.shop"
        (some "soft suspension") "2024-01-02T00:00:00"
        (insert_setup_if_new "Mazda MX-5" "Okayama" "http://a" "SimRacingSetup.com"
          (some "soft suspension") "2024-01-01T00:00:00" []).2).2
      (compute_setup_hash "Mazda MX-5" "Okayama" (some "soft suspension")) = 1 :=
  C2_sequential_idempotence "Mazda MX-5" "Okayama" "http://a" "SimRacingSetup.com"
    "http://b" "RacingSetups.shop" "2024-01-01T00:00:00" "2024-01-02T00:00:00"
    (some "soft suspension") [] rfl

/-- C3 counterexample: the claim's formula hashes `lower(car)` with no
whitespace stripping, but `compute_setup_hash` strips each component, so on
`car = " mx-5"` the two digests differ. -/
theorem C3_counterexample_whitespace :
    compute_setup_hash " mx-5" "okayama" (some "x") ≠
      specFingerprint " mx-5" "okayama" (some "x") := by decide

/-- C3 amended: the fingerprint is the SHA-256 hex digest of
`lower(strip(car)) + "|" + lower(strip(track)) + "|" +
lower(strip(notes-or-empty))`; it is a pure function of its arguments
(a Lean function, so equal inputs give identical digests by definition),
and it is case-invariant: inputs that agree after lower-casing collide. -/
theorem C3_amended_fingerprint_formula (car track : String) (notes : Option String) :
    compute_setup_hash car track notes =
      sha256Hex (utf8Bytes
        (pyLower (pyStrip car) ++ "|" ++ pyLower (pyStrip track) ++ "|" ++
         pyLower (pyStrip (notesOrEmpty notes)))) ∧
    (∀ (car2 track2 : String) (notes2 : Option String),
      pyLower car2 = pyLower car → pyLower track2 = pyLower track →
      pyLower (notesOrEmpty notes2) = pyLower (notesOrEmpty notes) →
      compute_setup_hash car2 track2 notes2 = compute_setup_hash car track notes) := by
  refine ⟨rfl, ?_⟩
  intro car2 track2 notes2 hc ht hn
  unfold compute_setup_hash
  rw [← pyStrip_pyLower, ← pyStrip_pyLower car, hc,
    ← pyStrip_pyLower, ← pyStrip_pyLower track, ht,
    ← pyStrip_pyLower, ← pyStrip_pyLower (notesOrEmpty notes), hn]

/-- Witness for C3 amended: `"mx-5"` and `"MX-5"` (and so on) differ only in
case and produce the same fingerprint. -/
theorem C3_amended_fingerprint_formula_witness :
    compute_setup_hash "mx-5" "okayama" (some "x") =
      compute_setup_hash "MX-5" "Okayama" (some "X") :=
  (C3_amended_fingerprint_formula "MX-5" "Okayama" (some "X")).2
    "mx-5" "okayama" (some "x") (by decide) (by decide) (by decide)

/-- C4 counterexample: `chat_with_ai` decides the fallback by substring
sniffing (`"failed" in search_results.lower()`, src/main.py line 201), so a
non-empty *successful* Brave result whose text happens to contain the word
"failed" also triggers `serpapi_search` — the claim's "never called" half
fails. -/
theorem C4_counterexample_success_containing_failed :
    (chat_with_ai
      ⟨.ok [("Why my suspension setup failed at Spa", "http://example.com/a")],
        .ok [], .ok [], .ok "resp"⟩ "q").serpapiCalls = ["q"] := by decide

/-- C4 amended: `serpapi_search` is invoked (with the same query) exactly
when the text returned by `brave_search` contains `"failed"`
case-insensitively.  In particular every Brave error outcome triggers the
SerpAPI fallback with the same query, and a successful Brave result whose
rendered text does not contain `"failed"` never triggers it — but a
successful result containing `"failed"` does. -/
theorem C4_amended_fallback_dispatch (prompt : String) (env : ChatEnv) :
    ((chat_with_ai env prompt).serpapiCalls =
      if pyContains "failed" (pyLower (brave_search env.braveOutcome)) then [prompt]
      else []) ∧
    (∀ e, env.braveOutcome = .err e →
      (chat_with_ai env prompt).serpapiCalls = [prompt]) ∧
    (∀ rs, env.braveOutcome = .ok rs →
      pyContains "failed" (pyLower (renderResults rs)) = false →
      (chat_with_ai env prompt).serpapiCalls = []) := by
  refine ⟨by simp [chat_with_ai], ?_, ?_⟩
  · intro e he
    simp [chat_with_ai, he, brave_err_contains_failed]
  · intro rs hrs hno
    simp [chat_with_ai, hrs, brave_search, hno]

/-- Witness for C4 amended: a Brave error triggers SerpAPI with the same
query; a clean successful result does not. -/
theorem C4_amended_fallback_dispatch_witness :
    (chat_with_ai ⟨.err "timeout", .ok [], .ok [], .ok "r"⟩ "gt3 setup").serpapiCalls =
      ["gt3 setup"] ∧
    (chat_with_ai ⟨.ok [("GT3 guide", "http://g")], .ok [], .ok [], .ok "r"⟩
      "gt3 setup").serpapiCalls = [] :=
  ⟨(C4_amended_fallback_dispatch "gt3 setup"
      ⟨.err "timeout", .ok [], .ok [], .ok "r"⟩).2.1 "timeout" rfl,
   (C4_amended_fallback_dispatch "gt3 setup"
      ⟨.ok [("GT3 guide", "http://g")], .ok [], .ok [], .ok "r"⟩).2.2
     [("GT3 guide", "http://g")] rfl (by decide)⟩

/-- C5: when both providers fail, the search context handed to the
completion step is the sentinel `"No information available."`; the request
is not aborted — the user message is still assembled around the sentinel,
and when the completion call succeeds the endpoint returns its normal
response.  (Relies on the spec-modelled bodies of the truncated
`brave_search` / missing `serpapi_search`.) -/
theorem C5_total_fallback_exhaustion (prompt e1 e2 : String)
    (sf : Except String (List SetupEntry)) (co : Except String String) :
    (chat_with_ai ⟨.err e1, .err e2, sf, co⟩ prompt).searchResults =
      "No information available." ∧
    (chat_with_ai ⟨.err e1, .err e2, sf, co⟩ prompt).userMessage =
      userContent prompt "No information available." (fetch_recent_setups sf) ∧
    (∀ c, co = .ok c →
      (chat_with_ai ⟨.err e1, .err e2, sf, co⟩ prompt).result =
        .response (pyStrip c)) := by
  have hb := brave_err_contains_failed e1
  refine ⟨?_, ?_, ?_⟩
  · simp [chat_with_ai, hb, serpapi_search]
  · simp [chat_with_ai, hb, serpapi_search]
  · intro c hc
    simp [chat_with_ai, hc]

/-- Witness for C5: both providers time out, the store read succeeds, the
completion succeeds; the response still comes back. -/
theorem C5_total_fallback_exhaustion_witness :
    (chat_with_ai ⟨.err "timeout", .err "quota", .ok [], .ok "Try soft springs."⟩
      "best mx5 setup").searchResults = "No information available." ∧
    (chat_with_ai ⟨.err "timeout", .err "quota", .ok [], .ok "Try soft springs."⟩
      "best mx5 setup").result = .response "Try soft springs." :=
  ⟨(C5_total_fallback_exhaustion "best mx5 setup" "timeout" "quota" (.ok [])
      (.ok "Try soft springs.")).1,
   (C5_total_fallback_exhaustion "best mx5 setup" "timeout" "quota" (.ok [])
      (.ok "Try soft springs.")).2.2 "Try soft springs." rfl⟩

/-- C6 counterexample: in a two-item batch on `/scrape/simracingsetup`, the
first item's detail-page request raises, and the whole endpoint returns
`{"error": ...}`: the second (fully valid) item is never processed, and
nothing at all is committed — a per-item fetch failure is not isolated. -/
theorem C6_counterexample_detail_fetch_aborts_batch :
    scrape_simracingsetup
      (.ok [{ car := some "Mazda MX-5", track := some "Okayama",
              link := some "/setups/1",
              detailFetch := .error "detail request timed out" },
            { car := some "BMW M4", track := some "Spa", link := some "/setups/2",
              detailFetch := .ok (some "stiff rear bar") }])
      "2024-01-01T00:00:00" [] = ([], .err "detail request timed out") ∧
    (scrape_simracingsetup
      (.ok [{ car := some "BMW M4", track := some "Spa", link := some "/setups/2",
              detailFetch := .ok (some "stiff rear bar") }])
      "2024-01-01T00:00:00" []).2 =
      .msg "Saved 1 new setups from SimRacingSetup.com" := by decide

/-- C6 amended: per-item isolation holds only for selector failures — an
item missing its car, track or details-link element is skipped and the rest
of the batch continues — but an exception in an item's detail-page request
propagates out of the loop: the endpoint returns `{"error": ...}`, the
remaining items are not processed, and only the rows inserted before the
failure remain committed. -/
theorem C6_amended_item_isolation (baseUrl source now : String) (item : RawItem)
    (rest : List RawItem) (st : Store) (saved : Nat) :
    (item.car = none ∨ item.track = none ∨ item.link = none →
      scrapeLoop baseUrl source now (item :: rest) st saved =
        scrapeLoop baseUrl source now rest st saved) ∧
    (∀ car track link e, item.car = some car → item.track = some track →
      item.link = some link → item.detailFetch = .error e →
      scrapeLoop baseUrl source now (item :: rest) st saved = (st, saved, some e)) := by
  constructor
  · intro h
    obtain ⟨c, t, l, d⟩ := item
    rcases h with h | h | h <;> simp_all [scrapeLoop]
  · intro car track link e hc ht hl hd
    obtain ⟨c, t, l, d⟩ := item
    simp only at hc ht hl hd
    subst hc ht hl hd
    simp [scrapeLoop]

/-- Witness for C6 amended: an item whose track selector found nothing is
skipped (empty remaining batch: the loop just ends), and an item whose
detail fetch raises aborts with that error. -/
theorem C6_amended_item_isolation_witness :
    scrapeLoop "https://www.simracingsetup.com" "SimRacingSetup.com" "t"
      [{ car := some "Mazda MX-5", track := none, link := some "/setups/1",
         detailFetch := .ok none }] [] 0 =
      scrapeLoop "https://www.simracingsetup.com" "SimRacingSetup.com" "t" [] [] 0 ∧
    scrapeLoop "https://www.simracingsetup.com" "SimRacingSetup.com" "t"
      [{ car := some "Mazda MX-5", track := some "Okayama", link := some "/setups/1",
         detailFetch := .error "boom" }] [] 0 = ([], 0, some "boom") :=
  ⟨(C6_amended_item_isolation "https://www.simracingsetup.com" "SimRacingSetup.com"
      "t" _ [] [] 0).1 (Or.inr (Or.inl rfl)),
   (C6_amended_item_isolation "https://www.simracingsetup.com" "SimRacingSetup.com"
      "t" _ [] [] 0).2 "Mazda MX-5" "Okayama" "/setups/1" "boom" rfl rfl rfl rfl⟩

/-- C7 counterexample: with the store read failing
(`"backend unavailable"`), `/chat` still returns a normal
`{"response": ...}` — the persistence failure is swallowed into the prompt
text (`"Could not load setups: ..."`), not surfaced as a structured
error. -/
theorem C7_counterexample_store_failure_swallowed :
    (chat_with_ai ⟨.ok [], .ok [], .error "backend unavailable", .ok "answer"⟩
      "q").result = .response "answer" ∧
    pyContains "Could not load setups"
      ((chat_with_ai ⟨.ok [], .ok [], .error "backend unavailable", .ok "answer"⟩
        "q").userMessage) = true := by decide

/-- C7 amended: a Setup-Store read failure while fetching recent setups
during answer assembly (the operation the claim cites) is caught inside
`fetch_recent_setups` and rendered as the string
`"Could not load setups: ..."` used as degraded prompt context; the chat
request proceeds and (when the completion succeeds) returns a normal
response, so that store failure is NOT surfaced to the caller as a
structured error. -/
theorem C7_amended_store_failure_rendered (e prompt c : String)
    (bo so : ProviderOutcome) :
    fetch_recent_setups (.error e) = "Could not load setups: " ++ e ∧
    (chat_with_ai ⟨bo, so, .error e, .ok c⟩ prompt).result = .response (pyStrip c) ∧
    (chat_with_ai ⟨bo, so, .error e, .ok c⟩ prompt).userMessage =
      userContent prompt (chat_with_ai ⟨bo, so, .error e, .ok c⟩ prompt).searchResults
        ("Could not load setups: " ++ e) := by
  refine ⟨rfl, by simp [chat_with_ai], by simp [chat_with_ai, fetch_recent_setups]⟩

/-- C8 counterexample: a successful completion does not append anything to
history — the handler contains no history write — so history length stays 0
instead of increasing by one. -/
theorem C8_counterexample_no_history_append :
    (chat_request [] ⟨.ok [], .ok [], .ok [], .ok "Use soft springs."⟩ "q").1.result =
      .response "Use soft springs." ∧
    (chat_request [] ⟨.ok [], .ok [], .ok [], .ok "Use soft springs."⟩ "q").2.length =
      0 := by decide

/-- C8 amended: `/chat` persists nothing at all.  The history log passes
through every request unchanged (so no prior entry is mutated, but nothing
is appended either, on success or on failure), and on a completion-provider
failure the caller receives the structured `{"error": ...}` result. -/
theorem C8_amended_no_persistence (hist : List ChatExchange) (env : ChatEnv)
    (prompt : String) :
    (chat_request hist env prompt).2 = hist ∧
    (∀ e, env.completionOutcome = .error e →
      (chat_request hist env prompt).1.result = .error e) := by
  refine ⟨rfl, ?_⟩
  intro e he
  simp [chat_request, chat_with_ai, he]

/-- Witness for C8 amended: a failing completion yields the structured
error and an unchanged (empty) history. -/
theorem C8_amended_no_persistence_witness :
    (chat_request [] ⟨.ok [], .ok [], .ok [], .error "quota exceeded"⟩ "q").2 = [] ∧
    (chat_request [] ⟨.ok [], .ok [], .ok [], .error "quota exceeded"⟩ "q").1.result =
      .error "quota exceeded" :=
  ⟨(C8_amended_no_persistence [] ⟨.ok [], .ok [], .ok [], .error "quota exceeded"⟩
      "q").1,
   (C8_amended_no_persistence [] ⟨.ok [], .ok [], .ok [], .error "quota exceeded"⟩
      "q").2 "quota exceeded" rfl⟩

/-- C9: the fingerprint strips surrounding whitespace from each component
before hashing — components equal after `strip()` (in particular, differing
only by surrounding whitespace) give equal fingerprints — and therefore two
inserts whose components differ only that way deduplicate: the second call
returns `False` and the fingerprint sits on exactly one stored record. -/
theorem C9_whitespace_invariance (car track car2 track2 : String)
    (notes notes2 : Option String)
    (hc : pyStrip car2 = pyStrip car) (ht : pyStrip track2 = pyStrip track)
    (hn : pyStrip (notesOrEmpty notes2) = pyStrip (notesOrEmpty notes)) :
    compute_setup_hash car2 track2 notes2 = compute_setup_hash car track notes ∧
    (∀ (url source now url2 source2 now2 : String) (st0 : Store),
      storeHasHash st0 (compute_setup_hash car track notes) = false →
      (insert_setup_if_new car track url source notes now st0).1 = true ∧
      (insert_setup_if_new car2 track2 url2 source2 notes2 now2
        (insert_setup_if_new car track url source notes now st0).2).1 = false ∧
      countHash (insert_setup_if_new car2 track2 url2 source2 notes2 now2
          (insert_setup_if_new car track url source notes now st0).2).2
        (compute_setup_hash car track notes) = 1) := by
  have heq : compute_setup_hash car2 track2 notes2 = compute_setup_hash car track notes := by
    unfold compute_setup_hash
    rw [hc, ht, hn]
  refine ⟨heq, ?_⟩
  intro url source now url2 source2 now2 st0 hfresh
  obtain ⟨h1, h2, _, h4⟩ := insert_pair_spec car track url source notes now
    car2 track2 url2 source2 notes2 now2 st0 heq hfresh
  exact ⟨h1, h2, h4⟩

/-- Witness for C9: `" MX-5 "` vs `"MX-5"` (and whitespace-padded track and
notes) collide, and the second insert into a fresh store is refused. -/
theorem C9_whitespace_invariance_witness :
    compute_setup_hash " MX-5 " "  Okayama" (some "soft suspension ") =
      compute_setup_hash "MX-5" "Okayama" (some "soft suspension") ∧
    (insert_setup_if_new "MX-5" "Okayama" "http://a" "SimRacingSetup.com"
      (some "soft suspension") "t1" []).1 = true ∧
    (insert_setup_if_new " MX-5 " "  Okayama" "http://b" "Reddit"
      (some "soft suspension ") "t2"
      (insert_setup_if_new "MX-5" "Okayama" "http://a" "SimRacingSetup.com"
        (some "soft suspension") "t1" []).2).1 = false :=
  ⟨(C9_whitespace_invariance "MX-5" "Okayama" " MX-5 " "  Okayama"
      (some "soft suspension") (some "soft suspension ")
      (by decide) (by decide) (by decide)).1,
   ((C9_whitespace_invariance "MX-5" "Okayama" " MX-5 " "  Okayama"
      (some "soft suspension") (some "soft suspension ")
      (by decide) (by decide) (by decide)).2
     "http://a" "SimRacingSetup.com" "t1" "http://b" "Reddit" "t2" [] rfl).1,
   ((C9_whitespace_invariance "MX-5" "Okayama" " MX-5 " "  Okayama"
      (some "soft suspension") (some "soft suspension ")
      (by decide) (by decide) (by decide)).2
     "http://a" "SimRacingSetup.com" "t1" "http://b" "Reddit" "t2" [] rfl).2.1⟩

/-- C10: calling `/scrape/reddit` with an empty (or absent, since the
FastAPI default is `""`) `car` parameter returns the
`{"error": "Please provide a 'car' query parameter"}` object, leaves the
store untouched, and issues no network request (third component `false`),
whatever the track, the Pushshift outcome, or the store. -/
theorem C10_reddit_requires_car (track now : String)
    (fetchOutcome : Except String (List RedditPost)) (st : Store) :
    scrape_reddit "" track fetchOutcome now st =
      (st, .err "Please provide a 'car' query parameter", false) := by
  simp [scrape_reddit]
